import Mathlib

/-!
Verification of the Zameen property-listings scraper (`function_app.py`).

This file is a shallow embedding of the scraper's core logic:

* `convert_price` / `convert_size` — the unit-aware field normalizers
  (source lines 185-244), embedded over `List Char`.  Python float values
  arising here are decimal literals scaled by integer unit multipliers, so
  they are represented exactly by `Dec` (integer mantissa over a power of
  ten), with Python's round-half-to-even rounding reproduced by `pyRound`.
* `text` — the shared tag-text extraction helper (source lines 247-273).
* `processHouse` — the per-listing extraction block inside `scrap`
  (source lines 377-412), including the `extract_additional_features`
  helper (lines 276-309) and the size-selector fallback through
  `location.parent` (lines 387-389), whose `AttributeError` when the
  location node is absent is modelled as the listing being skipped.
* `scrapAux` / `scrap` — the per-city pagination loop with its
  consecutive-error circuit breaker (source lines 312-437).  Network
  I/O is abstracted as a page-indexed oracle `fetch : Nat → Fetch`;
  the second component of the result counts fetch attempts (each loop
  iteration that passes the breaker check and issues the request).
* `runCities` — the per-city orchestration loop of `ZameenScraper`
  (source lines 95-175), with blob I/O abstracted as a per-city
  outcome oracle.

Modelling notes: the numeric-literal grammar accepted by `float(...)` and
`int(...)` is modelled by the decimal fragment (optional sign, digits,
optional fractional part) — exponent, underscore, and infinity/nan forms
count as parse failures.  Wall-clock timestamps, sleeps and logging have
no observable effect on the values the claims are about and are not
modelled.  Both normalizers are Lean functions, so totality and
determinism hold by construction.
-/

namespace Zameen

/-- Characters removed by Python's `str.strip()` (the `str.isspace` set). -/
def isPySpace (c : Char) : Bool :=
  c == ' ' || c == '\t' || c == '\n' || c == '\r' || c == '\x0b' || c == '\x0c'

/-- Python `s.strip()` on a character list. -/
def pyStrip (s : List Char) : List Char :=
  ((s.dropWhile isPySpace).reverse.dropWhile isPySpace).reverse

/-- Python `s.replace(",", "")`. -/
def removeCommas (s : List Char) : List Char :=
  s.filter (fun c => c != ',')

/-- Python `s.endswith(pat)`: `pat` is a suffix of `s`. -/
def pyEndsWith (s pat : List Char) : Bool :=
  decide (pat <:+ s)

/-- Python slicing `s[:-n]` for `n > 0` (everything but the last `n` chars). -/
def dropR (s : List Char) (n : Nat) : List Char :=
  s.take (s.length - n)

/-- Value of a string of decimal digits. -/
def digitsToNat (cs : List Char) : Nat :=
  cs.foldl (fun a c => 10 * a + (c.toNat - 48)) 0

/-- An exact decimal number `man / 10 ^ exp`.  All numbers flowing through
the normalizers are of this shape (decimal literal times an integer unit
multiplier), so this represents the Python float values exactly. -/
structure Dec where
  man : ℤ
  exp : Nat
deriving DecidableEq, Repr

/-- Scale a decimal by an integer unit multiplier. -/
def Dec.mulInt (d : Dec) (u : ℤ) : Dec := ⟨d.man * u, d.exp⟩

/-- Python `float(s)` on the decimal fragment: surrounding whitespace,
optional sign, digits with an optional single decimal point (at least one
digit overall).  `none` models `ValueError`. -/
def parseFloat (s : List Char) : Option Dec :=
  let t := pyStrip s
  let su : ℤ × List Char :=
    match t with
    | '-' :: rest => (-1, rest)
    | '+' :: rest => (1, rest)
    | _ => (1, t)
  let ip := su.2.takeWhile Char.isDigit
  let r1 := su.2.dropWhile Char.isDigit
  match r1 with
  | [] => if ip.isEmpty then none else some ⟨su.1 * (digitsToNat ip : ℤ), 0⟩
  | '.' :: r2 =>
    let fp := r2.takeWhile Char.isDigit
    let r3 := r2.dropWhile Char.isDigit
    if r3.isEmpty then
      if ip.isEmpty && fp.isEmpty then none
      else some ⟨su.1 * (digitsToNat (ip ++ fp) : ℤ), fp.length⟩
    else none
  | _ => none

/-- Python `int(s)` on the decimal fragment: surrounding whitespace,
optional sign, digits only.  `none` models `ValueError`. -/
def parseIntL (s : List Char) : Option ℤ :=
  let t := pyStrip s
  match t with
  | '-' :: ds => if !ds.isEmpty && ds.all Char.isDigit then some (-(digitsToNat ds : ℤ)) else none
  | '+' :: ds => if !ds.isEmpty && ds.all Char.isDigit then some (digitsToNat ds : ℤ) else none
  | ds => if !ds.isEmpty && ds.all Char.isDigit then some (digitsToNat ds : ℤ) else none

/-- Python `round(x)` on an exact decimal (round to nearest, ties to even). -/
def pyRound (d : Dec) : ℤ :=
  let p : ℤ := (10 : ℤ) ^ d.exp
  let f := Int.fdiv d.man p
  let r2 := 2 * (d.man - f * p)
  if r2 < p then f
  else if p < r2 then f + 1
  else if f % 2 = 0 then f else f + 1

/-- `convert_price`, source lines 185-214, before rounding: the numeric
value the selected branch computes (`none` models the `return 0` paths:
empty input at line 192 and the `except` clause at line 212).  Every
branch mirrors one `elif` of the source: strip the string, test the unit
suffix, strip commas from the prefix, parse, multiply. -/
def priceValue (s : List Char) : Option Dec :=
  if s = [] then none
  else
    let p := pyStrip s
    if pyEndsWith p "Crore".data then
      (parseFloat (removeCommas (pyStrip (dropR p 5)))).map (·.mulInt 10000000)
    else if pyEndsWith p "Lakh".data then
      (parseFloat (removeCommas (pyStrip (dropR p 4)))).map (·.mulInt 100000)
    else if pyEndsWith p "Million".data then
      (parseFloat (removeCommas (pyStrip (dropR p 7)))).map (·.mulInt 1000000)
    else if pyEndsWith p "Arab".data then
      (parseFloat (removeCommas (pyStrip (dropR p 4)))).map (·.mulInt 1000000000)
    else if pyEndsWith p "Thousand".data then
      (parseFloat (removeCommas (pyStrip (dropR p 8)))).map (·.mulInt 1000)
    else
      parseFloat (removeCommas p)

/-- `convert_price` on a character list: round the branch value, or 0 on
empty input / parse failure. -/
def convert_priceL (s : List Char) : ℤ :=
  match priceValue s with
  | some q => pyRound q
  | none => 0

/-- `convert_price` (source lines 185-214). -/
def convert_price (s : String) : ℤ := convert_priceL s.data

/-- `convert_size`, source lines 217-244, before rounding; same shape as
`priceValue`.  The `Sq. Ft.` branch has no multiplier in the source. -/
def sizeValue (s : List Char) : Option Dec :=
  if s = [] then none
  else
    let p := pyStrip s
    if pyEndsWith p "Marla".data then
      (parseFloat (removeCommas (pyStrip (dropR p 5)))).map (·.mulInt 225)
    else if pyEndsWith p "Kanal".data then
      (parseFloat (removeCommas (pyStrip (dropR p 5)))).map (·.mulInt 4500)
    else if pyEndsWith p "Sq. Yd.".data then
      (parseFloat (removeCommas (pyStrip (dropR p 7)))).map (·.mulInt 9)
    else if pyEndsWith p "Sq. Ft.".data then
      parseFloat (removeCommas (pyStrip (dropR p 7)))
    else
      parseFloat (removeCommas p)

/-- `convert_size` on a character list: round the branch value, or 0 on
empty input / parse failure. -/
def convert_sizeL (s : List Char) : ℤ :=
  match sizeValue s with
  | some q => pyRound q
  | none => 0

/-- `convert_size` (source lines 217-244). -/
def convert_size (s : String) : ℤ := convert_sizeL s.data

/-- A DOM tag as the extraction code sees it: only its text matters. -/
structure Node where
  text : String
deriving DecidableEq, Repr

/-- Datatype selector of the `text` helper (`datatype` parameter). -/
inductive Datatype
  | num
  | str
  | price
  | size
deriving DecidableEq, Repr

/-- Result of the `text` helper (an `int`/`float` or a `str` in Python). -/
inductive TVal
  | int (z : ℤ)
  | str (s : String)
deriving DecidableEq, Repr

/-- `text(tag, datatype)`, source lines 247-273: absent tag gives `0` /
`""`; `num` parses an integer (`ValueError` gives 0); `price` / `size`
delegate to the normalizers on the stripped tag text. -/
def text (tag : Option Node) (datatype : Datatype) : TVal :=
  match datatype, tag with
  | .num, none => .int 0
  | .num, some t =>
    match parseIntL (pyStrip t.text.data) with
    | some z => .int z
    | none => .int 0
  | .str, none => .str ""
  | .str, some t => .str (String.mk (pyStrip t.text.data))
  | .price, none => .int 0
  | .price, some t => .int (convert_priceL (pyStrip t.text.data))
  | .size, none => .int 0
  | .size, some t => .int (convert_sizeL (pyStrip t.text.data))

/-- Numeric payload of a `TVal` (the branches used always return `.int`). -/
def TVal.toInt : TVal → ℤ
  | .int z => z
  | .str _ => 0

/-- String payload of a `TVal` (the branches used always return `.str`). -/
def TVal.toStr : TVal → String
  | .int _ => ""
  | .str s => s

/-- One listing node of a result page: the outcome of each `select_one`
call made for it in source lines 379-389 and 285-295.  `sizeFallback` is
the node the secondary size selector (relative to `location.parent`,
line 388) would yield; it is only reachable when `location` is present. -/
structure House where
  baths : Option Node
  beds : Option Node
  location : Option Node
  price : Option Node
  sizePrimary : Option Node
  sizeFallback : Option Node
  property_type : Option Node
  date_added : Option Node
  reference : Option Node
deriving DecidableEq, Repr

/-- One scraped record (`listing_data`, source lines 396-406).  The
`scrape_date` wall-clock field is not modelled. -/
structure Listing where
  location : String
  price : ℤ
  bedrooms : ℤ
  baths : ℤ
  size : ℤ
  property_type : String
  date_added : String
  original_listing_id : String
deriving DecidableEq, Repr

/-- Build `listing_data` from a house and the resolved size node
(source lines 391-406; the additional features come from
`extract_additional_features`, lines 276-309, whose internal defaults
coincide with `text` on `str`). -/
def mkListing (house : House) (size : Option Node) : Listing :=
  { location := (text house.location .str).toStr
  , price := (text house.price .price).toInt
  , bedrooms := (text house.beds .num).toInt
  , baths := (text house.baths .num).toInt
  , size := (text size .size).toInt
  , property_type := (text house.property_type .str).toStr
  , date_added := (text house.date_added .str).toStr
  , original_listing_id := (text house.reference .str).toStr }

/-- The per-house body of the page loop (source lines 377-412).  `none`
means nothing was appended for this house: either the price node is
absent (line 386), or the size fallback dereferences an absent location
node (`location.parent`, line 388) — the resulting `AttributeError` is
caught at line 409 and the house is skipped. -/
def processHouse (house : House) : Option Listing :=
  match house.price with
  | none => none
  | some _ =>
    match house.sizePrimary, house.location with
    | none, none => none
    | none, some _ => some (mkListing house house.sizeFallback)
    | some s, _ => some (mkListing house (some s))

/-- Listings a page's house list contributes, in order (the `for house in
house_list` loop, lines 377-412). -/
def pageListings (houses : List House) : List Listing :=
  houses.filterMap processHouse

/-- A fetched result page before listing extraction: the node lists the
primary container selector (line 361) and the fallback selector
(line 365) would produce. -/
structure HtmlPage where
  primary : List House
  secondary : List House
deriving Repr

/-- Outcome of one page fetch attempt (lines 350-359 and the two
`except` clauses, lines 423-433): a transport-level failure
(`RequestException` from `requests.get` / `raise_for_status`, or the
generic `except`), an invalid-HTML response (line 354), or a parsed
page. -/
inductive Fetch
  | transport
  | invalid
  | html (page : HtmlPage)

/-- `True` for the two outcomes that count toward the circuit breaker. -/
def Fetch.isErr : Fetch → Bool
  | .transport => true
  | .invalid => true
  | .html _ => false

/-- The effective house list: primary selector, else the fallback
(lines 361-365). -/
def houseList (pg : HtmlPage) : List House :=
  if pg.primary.isEmpty then pg.secondary else pg.primary

/-- `max_consecutive_errors` (source line 331). -/
def max_consecutive_errors : Nat := 3

/-- The pagination loop of `scrap` (source lines 333-433), one constructor
case per iteration of `for page_number in range(1, pages_range+1)`;
`remaining` is the number of page indices the range still holds, starting
at `pages_range`.  State: current page number, `consecutive_errors`,
`house_info`, and an instrumentation counter of fetch attempts (loop
iterations that pass the breaker check and issue the request).  Stops:
breaker trip (line 335), no houses on the page (line 368), and no new
listings after a parsed page (line 418); a parsed page resets
`consecutive_errors` to 0 (line 415). -/
def scrapAux (fetch : Nat → Fetch) :
    Nat → Nat → Nat → List Listing → Nat → List Listing × Nat
  | 0, _, _, house_info, fetched => (house_info, fetched)
  | remaining + 1, page, consecutive_errors, house_info, fetched =>
    if max_consecutive_errors ≤ consecutive_errors then (house_info, fetched)
    else
      match fetch page with
      | .transport =>
        scrapAux fetch remaining (page + 1) (consecutive_errors + 1) house_info (fetched + 1)
      | .invalid =>
        scrapAux fetch remaining (page + 1) (consecutive_errors + 1) house_info (fetched + 1)
      | .html pg =>
        let hl := houseList pg
        if hl.isEmpty then (house_info, fetched + 1)
        else
          let new_info := house_info ++ pageListings hl
          if new_info.length = house_info.length then (new_info, fetched + 1)
          else scrapAux fetch remaining (page + 1) 0 new_info (fetched + 1)

/-- `scrap(city, pages_range, delay)` (source lines 312-437), with the
network abstracted as a page-indexed fetch oracle.  Returns the
accumulated listings and the number of fetch attempts made. -/
def scrap (fetch : Nat → Fetch) (pages_range : Nat) : List Listing × Nat :=
  scrapAux fetch pages_range 1 0 [] 0

/-- A house with every optional node absent. -/
def emptyHouse : House :=
  ⟨none, none, none, none, none, none, none, none, none⟩

/-- A configured city (`{'id': ..., 'name': ...}`, source lines 60-72). -/
structure City where
  id : Nat
  name : String
deriving DecidableEq, Repr

/-- City status recorded in `city_stats` (lines 113-169). -/
inductive CityStatus
  | success
  | no_data
  | error
deriving DecidableEq, Repr

/-- One `city_stats` entry.  `listings_count` is `none` when the entry
does not carry the key (the `status=error` entries, lines 165-169);
`error_message` likewise. -/
structure CityStat where
  status : CityStatus
  listings_count : Option Nat
  error_message : Option String
deriving DecidableEq, Repr

/-- What one city's processing inside the `try` of lines 103-162 does,
abstracting the scrape and the blob I/O: either `scrap` itself raises,
or it returns `data`, after which the upload steps (lines 126-151, which
run only when `data` is nonempty and after `total_listings` was already
increased at line 124) either succeed or raise with a message. -/
inductive CityRun
  | raises (msg : String)
  | returns (data : List Listing) (uploadError : Option String)

/-- One iteration of the `for city in cities` loop (source lines 99-169):
the contribution to `total_listings` and the `city_stats` entry.
`returns [] _` is the `no_data` path (lines 113-120), which `continue`s
before any upload; `returns data (some msg)` is an upload raising after
`total_listings += listings_count` (line 124), caught at line 163 and
recorded as an error entry without a `listings_count` key. -/
def cityStep (f : City → CityRun) (c : City) : Nat × (String × CityStat) :=
  match f c with
  | .raises msg => (0, (c.name, ⟨.error, none, some msg⟩))
  | .returns data uploadError =>
    if data.isEmpty then (0, (c.name, ⟨.no_data, some 0, none⟩))
    else
      match uploadError with
      | none => (data.length, (c.name, ⟨.success, some data.length, none⟩))
      | some msg => (data.length, (c.name, ⟨.error, none, some msg⟩))

/-- The whole city loop (lines 95-169): final `total_listings` and the
`city_stats` entries in insertion order. -/
def runCities (f : City → CityRun) : List City → Nat × List (String × CityStat)
  | [] => (0, [])
  | c :: rest =>
    let s := cityStep f c
    let r := runCities f rest
    (s.1 + r.1, s.2 :: r.2)

/-- `sum(cityStats[*].listingsCount)` over recorded entries; entries
without the key contribute nothing. -/
def sumCounts (stats : List (String × CityStat)) : Nat :=
  (stats.map (fun e => e.2.listings_count.getD 0)).sum

/-- A house that parses into a listing (price and primary size nodes). -/
def goodHouse : House :=
  { emptyHouse with price := some ⟨"50 Lakh"⟩, sizePrimary := some ⟨"10 Marla"⟩ }

/-- A house with a price node but neither size node source: extracting it
hits `location.parent` with `location = None`. -/
def priceOnlyHouse : House :=
  { emptyHouse with price := some ⟨"1.5 Crore"⟩ }

/-- A page whose single house has no price node, so it parses to nothing. -/
def pgNoNew : HtmlPage :=
  ⟨[{ emptyHouse with location := some ⟨"DHA"⟩ }], []⟩

/-- The 2-page fixture of the claimed end-to-end scenario: page 1 has 20
parseable houses, every later page has no listing nodes. -/
def fetch20 : Nat → Fetch := fun page =>
  if page = 1 then .html ⟨List.replicate 20 goodHouse, []⟩ else .html ⟨[], []⟩

/-- A concrete listing record used in orchestration scenarios. -/
def sampleListing : Listing := ⟨"DHA Phase 5", 5000000, 3, 2, 2250, "House", "", ""⟩

/-- Two configured cities for the run-level scenarios. -/
def exampleCities : List City := [⟨1, "Lahore"⟩, ⟨2, "Karachi"⟩]

/-- A run in which the first city succeeds with 5 listings and the second
city's blob upload raises after its 20 listings were already counted. -/
def exampleRun : City → CityRun := fun c =>
  if c.name = "Lahore" then .returns (List.replicate 5 sampleListing) none
  else .returns (List.replicate 20 sampleListing) (some "blob upload failed")

/-- Cities A, B, C for the failure-isolation scenario. -/
def wCityA : City := ⟨1, "Lahore"⟩

/-- City B, whose processing raises. -/
def wCityB : City := ⟨2, "Karachi"⟩

/-- City C, processed after the failing city. -/
def wCityC : City := ⟨3, "Islamabad"⟩

/-- A run where exactly city B raises. -/
def wRun : City → CityRun := fun c =>
  if c.name = "Karachi" then .raises "boom" else .returns [sampleListing] none

/-! ## Helper lemmas -/

/-- Two candidate unit suffixes of one string are comparable, so if
neither of `a`, `b` ends the other, a string ending in `a` cannot also
end in `b`.  Makes the unit branches of the normalizers mutually
exclusive. -/
lemma pyEndsWith_excl {s a b : List Char} (h : pyEndsWith s a = true)
    (hab : ¬ a <:+ b) (hba : ¬ b <:+ a) : pyEndsWith s b = false := by
  simp only [pyEndsWith, decide_eq_true_eq] at h
  simp only [pyEndsWith, decide_eq_false_iff_not]
  intro hb
  rcases List.suffix_or_suffix_of_suffix h hb with h1 | h1
  · exact hab h1
  · exact hba h1

/-- Once the consecutive-error counter has reached the threshold, the loop
stops at once, keeping the accumulator and making no further fetch. -/
lemma scrapAux_stop (fetch : Nat → Fetch) (remaining page err : Nat)
    (acc : List Listing) (fetched : Nat) (h : max_consecutive_errors ≤ err) :
    scrapAux fetch remaining page err acc fetched = (acc, fetched) := by
  cases remaining <;> simp [scrapAux, h]

/-- One loop iteration on a breaker-counted failure outcome: counter and
fetch count go up, accumulator and page advance. -/
lemma scrapAux_err_step (fetch : Nat → Fetch) (remaining page err : Nat)
    (acc : List Listing) (fetched : Nat) (herr : err < max_consecutive_errors)
    (he : (fetch page).isErr = true) :
    scrapAux fetch (remaining + 1) page err acc fetched =
      scrapAux fetch remaining (page + 1) (err + 1) acc (fetched + 1) := by
  have hlt := Nat.not_le.mpr herr
  cases hf : fetch page with
  | transport => simp [scrapAux, hlt, hf]
  | invalid => simp [scrapAux, hlt, hf]
  | html pg => simp [Fetch.isErr, hf] at he

/-- A run of `k` consecutive failure outcomes that brings the counter to
the threshold makes exactly `k` more fetch attempts and returns the
accumulator unchanged. -/
lemma scrapAux_err_run (fetch : Nat → Fetch) :
    ∀ (k remaining page err : Nat) (acc : List Listing) (fetched : Nat),
      err + k = max_consecutive_errors → k ≤ remaining →
      (∀ i, i < k → (fetch (page + i)).isErr = true) →
      scrapAux fetch remaining page err acc fetched = (acc, fetched + k) := by
  intro k
  induction k with
  | zero =>
    intro remaining page err acc fetched htot _ _
    simpa using scrapAux_stop fetch remaining page err acc fetched (by omega)
  | succ k ih =>
    intro remaining page err acc fetched htot hrem herrs
    obtain ⟨r, rfl⟩ : ∃ r, remaining = r + 1 := ⟨remaining - 1, by omega⟩
    rw [scrapAux_err_step fetch r page err acc fetched (by omega)
      (by simpa using herrs 0 (by omega))]
    rw [ih r (page + 1) (err + 1) acc (fetched + 1) (by omega) (by omega)
      (fun i hi => by simpa [Nat.add_assoc, Nat.add_comm 1 i] using herrs (i + 1) (by omega))]
    simp [Nat.add_assoc, Nat.add_comm 1 k]

/-! ## Claims -/

/-- C1: with `max_consecutive_errors` fixed at 3, from any loop state with
a fresh (zero) consecutive-error counter, three consecutive
`TransportError`/`InvalidResponse` outcomes make exactly three more fetch
attempts and halt the loop for that city with the accumulated listings
unchanged — in particular the page after the third failing one is never
fetched. -/
theorem claim_C1 (fetch : Nat → Fetch) (remaining page : Nat)
    (acc : List Listing) (fetched : Nat) (h3 : 3 ≤ remaining)
    (e1 : (fetch page).isErr = true) (e2 : (fetch (page + 1)).isErr = true)
    (e3 : (fetch (page + 2)).isErr = true) :
    max_consecutive_errors = 3 ∧
    scrapAux fetch remaining page 0 acc fetched = (acc, fetched + 3) := by
  refine ⟨rfl, ?_⟩
  refine scrapAux_err_run fetch 3 remaining page 0 acc fetched rfl h3 ?_
  intro i hi
  interval_cases i
  · simpa using e1
  · simpa using e2
  · simpa using e3

/-- C1 witness: with `maxPages = 10` and every fetch a `TransportError`,
the city result is empty and exactly 3 fetch attempts are made (pages
1-3; page 4 is never attempted); a pre-accumulated listing survives. -/
theorem claim_C1_witness :
    (3 : Nat) ≤ 10 ∧
    (max_consecutive_errors = 3 ∧
      scrapAux (fun _ => Fetch.transport) 10 1 0 [sampleListing] 0 = ([sampleListing], 0 + 3)) :=
  ⟨by decide,
    claim_C1 (fun _ => Fetch.transport) 10 1 [sampleListing] 0 (by decide)
      (by decide) (by decide) (by decide)⟩

/-- C2: on a page whose fetch parses a nonempty house list, if appending
the page's extracted listings leaves the accumulator length unchanged the
loop returns at once (no next-page fetch, one fetch attempt consumed);
otherwise it continues to the next page with the consecutive-error
counter reset to 0.  The third conjunct shows a nonempty house list that
contributes no listings (its only house lacks a price node), so the stop
fires even on a "Parsed" page whose every listing failed extraction. -/
theorem claim_C2 (fetch : Nat → Fetch) (remaining page err : Nat)
    (acc : List Listing) (fetched : Nat) (pg : HtmlPage)
    (herr : err < max_consecutive_errors) (hf : fetch page = .html pg)
    (hne : (houseList pg).isEmpty = false) :
    ((acc ++ pageListings (houseList pg)).length = acc.length →
      scrapAux fetch (remaining + 1) page err acc fetched =
        (acc ++ pageListings (houseList pg), fetched + 1)) ∧
    ((acc ++ pageListings (houseList pg)).length ≠ acc.length →
      scrapAux fetch (remaining + 1) page err acc fetched =
        scrapAux fetch remaining (page + 1) 0 (acc ++ pageListings (houseList pg)) (fetched + 1)) ∧
    pageListings (houseList pgNoNew) = [] ∧ (houseList pgNoNew).isEmpty = false := by
  have hlt := Nat.not_le.mpr herr
  refine ⟨fun hlen => ?_, fun hlen => ?_, by decide, by decide⟩
  · simp [scrapAux, hlt, hf, hne, hlen]
  · have hpl : pageListings (houseList pg) ≠ [] := by
      intro h0
      exact hlen (by simp [h0])
    simp [scrapAux, hlt, hf, hne, hpl]

/-- C2 witness: a page whose single house has no price node stops
pagination right after itself with the accumulator unchanged. -/
theorem claim_C2_witness :
    (0 : Nat) < max_consecutive_errors ∧ (houseList pgNoNew).isEmpty = false ∧
    scrapAux (fun _ => Fetch.html pgNoNew) 9 1 0 [] 0 =
      ([] ++ pageListings (houseList pgNoNew), 0 + 1) :=
  ⟨by decide, by decide,
    (claim_C2 (fun _ => Fetch.html pgNoNew) 8 1 0 [] 0 pgNoNew (by decide) rfl
      (by decide)).1 (by decide)⟩

/-- C3: an `Empty` outcome — no listing nodes under the primary or the
secondary container selector — stops pagination at once, keeping the
accumulated listings, with exactly one more fetch attempt consumed; and
in the 2-page fixture (20 parseable houses on page 1, `Empty` on page 2)
the city result has exactly 20 records from exactly 2 fetch attempts. -/
theorem claim_C3 (fetch : Nat → Fetch) (remaining page err : Nat)
    (acc : List Listing) (fetched : Nat) (pg : HtmlPage)
    (herr : err < max_consecutive_errors) (hf : fetch page = .html pg)
    (hp : pg.primary = []) (hs : pg.secondary = []) :
    scrapAux fetch (remaining + 1) page err acc fetched = (acc, fetched + 1) ∧
    (scrap fetch20 10).1.length = 20 ∧ (scrap fetch20 10).2 = 2 := by
  have hemp : (houseList pg).isEmpty = true := by simp [houseList, hp, hs]
  refine ⟨?_, by decide, by decide⟩
  simp [scrapAux, Nat.not_le.mpr herr, hf, hemp]

/-- C3 witness: an empty page right away returns the pre-accumulated
listings after a single fetch attempt. -/
theorem claim_C3_witness :
    (0 : Nat) < max_consecutive_errors ∧
    scrapAux (fun _ => Fetch.html ⟨[], []⟩) 10 1 0 [sampleListing] 4 = ([sampleListing], 4 + 1) :=
  ⟨by decide,
    (claim_C3 (fun _ => Fetch.html ⟨[], []⟩) 9 1 0 [sampleListing] 4 ⟨[], []⟩
      (by decide) rfl rfl rfl).1⟩

/-- C10: the listing accumulator is append-only — from any loop state,
whatever termination path is taken, the returned listing list extends
the current accumulator (so every appended record is preserved in
order and no stop condition discards records). -/
theorem claim_C10 (fetch : Nat → Fetch) (remaining page err : Nat)
    (acc : List Listing) (fetched : Nat) :
    ∃ tl, (scrapAux fetch remaining page err acc fetched).1 = acc ++ tl := by
  induction remaining generalizing page err acc fetched with
  | zero => exact ⟨[], by simp [scrapAux]⟩
  | succ r ih =>
    by_cases hb : max_consecutive_errors ≤ err
    · exact ⟨[], by simp [scrapAux, hb]⟩
    · cases hf : fetch page with
      | transport =>
        obtain ⟨tl, h⟩ := ih (page + 1) (err + 1) acc (fetched + 1)
        exact ⟨tl, by simp [scrapAux, hb, hf, h]⟩
      | invalid =>
        obtain ⟨tl, h⟩ := ih (page + 1) (err + 1) acc (fetched + 1)
        exact ⟨tl, by simp [scrapAux, hb, hf, h]⟩
      | html pg =>
        by_cases he : (houseList pg).isEmpty = true
        · exact ⟨[], by simp [scrapAux, hb, hf, he]⟩
        · by_cases hlen : (acc ++ pageListings (houseList pg)).length = acc.length
          · exact ⟨pageListings (houseList pg), by simp [scrapAux, hb, hf, he, hlen]⟩
          · obtain ⟨tl, h⟩ := ih (page + 1) 0 (acc ++ pageListings (houseList pg)) (fetched + 1)
            have hpl : pageListings (houseList pg) ≠ [] := by
              intro h0
              exact hlen (by simp [h0])
            exact ⟨pageListings (houseList pg) ++ tl,
              by simp [scrapAux, hb, hf, he, hpl, h, List.append_assoc]⟩

/-- C7 counterexample: a listing node with a resolvable price but no
primary size node and no location node is discarded — the size-selector
fallback dereferences the absent location node, the raised error is
caught, and the listing is skipped — refuting "discarded exactly when the
price field is not resolvable". -/
theorem claim_C7_cex :
    priceOnlyHouse.price.isSome = true ∧ processHouse priceOnlyHouse = none := by
  decide

/-- C7 (amended): a listing is discarded exactly when its price node is
absent, or when the price node is present but both the primary size node
and the location node are absent (field extraction raises on
`location.parent`); every listing escaping both cases is included, with
each missing optional node defaulting via the `text` contract, and a
discarded listing is simply dropped from its page's results without
affecting the other listings of the page. -/
theorem claim_C7 (house : House) (hs1 hs2 : List House) :
    (processHouse house = none ↔
      house.price = none ∨ (house.sizePrimary = none ∧ house.location = none)) ∧
    (processHouse house = none →
      pageListings (hs1 ++ house :: hs2) = pageListings (hs1 ++ hs2)) ∧
    (∀ p s, house.price = some p → house.sizePrimary = some s →
      processHouse house = some (mkListing house (some s))) ∧
    (∀ p l, house.price = some p → house.sizePrimary = none → house.location = some l →
      processHouse house = some (mkListing house house.sizeFallback)) ∧
    (∀ p s, processHouse { emptyHouse with price := some p, sizePrimary := some s } =
      some ⟨"", convert_priceL (pyStrip p.text.data), 0, 0,
            convert_sizeL (pyStrip s.text.data), "", "", ""⟩) := by
  refine ⟨?_, ?_, ?_, ?_, ?_⟩
  · rcases hp : house.price with _ | p <;>
      rcases hsz : house.sizePrimary with _ | sz <;>
        rcases hl : house.location with _ | l <;>
          simp [processHouse, hp, hsz, hl]
  · intro h
    simp [pageListings, List.filterMap_append, List.filterMap_cons, h]
  · intro p s hp hs
    simp [processHouse, hp, hs]
  · intro p l hp hs hl
    simp [processHouse, hp, hs, hl]
  · intro p s
    rfl

/-- C7 witness: a house with price and primary size nodes is included
with location, bedrooms, baths, property type, date and reference id
defaulting to empty string / zero. -/
theorem claim_C7_witness :
    goodHouse.price = some ⟨"50 Lakh"⟩ ∧ goodHouse.sizePrimary = some ⟨"10 Marla"⟩ ∧
    processHouse goodHouse = some (mkListing goodHouse (some ⟨"10 Marla"⟩)) :=
  ⟨rfl, rfl, (claim_C7 goodHouse [] []).2.2.1 ⟨"50 Lakh"⟩ ⟨"10 Marla"⟩ rfl rfl⟩

/-- C4: the `convert_price` unit table.  The concrete testable values
hold; for every input whose stripped form ends in a unit suffix, the
result is the comma-stripped numeric prefix times the unit multiplier
(`Crore` 10^7, `Lakh` 10^5, `Million` 10^6, `Arab` 10^9, `Thousand`
10^3), rounded to the nearest integer (ties to even, as Python rounds);
an input ending in no unit suffix is parsed as a plain comma-stripped
decimal and rounded. -/
theorem claim_C4 :
    convert_price "1.5 Crore" = 15000000 ∧
    convert_price "50 Lakh" = 5000000 ∧
    convert_price "" = 0 ∧
    convert_price "abc" = 0 ∧
    convert_price "2 Million" = 2000000 ∧
    convert_price "1.5 Arab" = 1500000000 ∧
    convert_price "750 Thousand" = 750000 ∧
    (∀ (s : String) (d : Dec),
      pyEndsWith (pyStrip s.data) "Crore".data = true →
      parseFloat (removeCommas (pyStrip (dropR (pyStrip s.data) 5))) = some d →
      convert_price s = pyRound (d.mulInt 10000000)) ∧
    (∀ (s : String) (d : Dec),
      pyEndsWith (pyStrip s.data) "Lakh".data = true →
      parseFloat (removeCommas (pyStrip (dropR (pyStrip s.data) 4))) = some d →
      convert_price s = pyRound (d.mulInt 100000)) ∧
    (∀ (s : String) (d : Dec),
      pyEndsWith (pyStrip s.data) "Million".data = true →
      parseFloat (removeCommas (pyStrip (dropR (pyStrip s.data) 7))) = some d →
      convert_price s = pyRound (d.mulInt 1000000)) ∧
    (∀ (s : String) (d : Dec),
      pyEndsWith (pyStrip s.data) "Arab".data = true →
      parseFloat (removeCommas (pyStrip (dropR (pyStrip s.data) 4))) = some d →
      convert_price s = pyRound (d.mulInt 1000000000)) ∧
    (∀ (s : String) (d : Dec),
      pyEndsWith (pyStrip s.data) "Thousand".data = true →
      parseFloat (removeCommas (pyStrip (dropR (pyStrip s.data) 8))) = some d →
      convert_price s = pyRound (d.mulInt 1000)) ∧
    (∀ (s : String) (d : Dec),
      pyEndsWith (pyStrip s.data) "Crore".data = false →
      pyEndsWith (pyStrip s.data) "Lakh".data = false →
      pyEndsWith (pyStrip s.data) "Million".data = false →
      pyEndsWith (pyStrip s.data) "Arab".data = false →
      pyEndsWith (pyStrip s.data) "Thousand".data = false →
      parseFloat (removeCommas (pyStrip s.data)) = some d →
      convert_price s = pyRound d) := by
  refine ⟨by decide, by decide, by decide, by decide, by decide, by decide, by decide,
    ?_, ?_, ?_, ?_, ?_, ?_⟩
  · intro s d hend hp
    have hsne : s.data ≠ [] := fun h0 => absurd (h0 ▸ hend) (by decide)
    simp [convert_price, convert_priceL, priceValue, hsne, hend, hp]
  · intro s d hend hp
    have hsne : s.data ≠ [] := fun h0 => absurd (h0 ▸ hend) (by decide)
    have h1 := pyEndsWith_excl hend (a := "Lakh".data) (b := "Crore".data)
      (by decide) (by decide)
    simp [convert_price, convert_priceL, priceValue, hsne, h1, hend, hp]
  · intro s d hend hp
    have hsne : s.data ≠ [] := fun h0 => absurd (h0 ▸ hend) (by decide)
    have h1 := pyEndsWith_excl hend (b := "Crore".data) (by decide) (by decide)
    have h2 := pyEndsWith_excl hend (b := "Lakh".data) (by decide) (by decide)
    simp [convert_price, convert_priceL, priceValue, hsne, h1, h2, hend, hp]
  · intro s d hend hp
    have hsne : s.data ≠ [] := fun h0 => absurd (h0 ▸ hend) (by decide)
    have h1 := pyEndsWith_excl hend (b := "Crore".data) (by decide) (by decide)
    have h2 := pyEndsWith_excl hend (b := "Lakh".data) (by decide) (by decide)
    have h3 := pyEndsWith_excl hend (b := "Million".data) (by decide) (by decide)
    simp [convert_price, convert_priceL, priceValue, hsne, h1, h2, h3, hend, hp]
  · intro s d hend hp
    have hsne : s.data ≠ [] := fun h0 => absurd (h0 ▸ hend) (by decide)
    have h1 := pyEndsWith_excl hend (b := "Crore".data) (by decide) (by decide)
    have h2 := pyEndsWith_excl hend (b := "Lakh".data) (by decide) (by decide)
    have h3 := pyEndsWith_excl hend (b := "Million".data) (by decide) (by decide)
    have h4 := pyEndsWith_excl hend (b := "Arab".data) (by decide) (by decide)
    simp [convert_price, convert_priceL, priceValue, hsne, h1, h2, h3, h4, hend, hp]
  · intro s d h1 h2 h3 h4 h5 hp
    have hsne : s.data ≠ [] := by
      intro h0
      rw [h0, show parseFloat (removeCommas (pyStrip ([] : List Char))) = none from by decide] at hp
      exact Option.noConfusion hp
    simp [convert_price, convert_priceL, priceValue, hsne, h1, h2, h3, h4, h5, hp]

/-- C4 witness: the `Crore` row applied at "2 Crore". -/
theorem claim_C4_witness :
    pyEndsWith (pyStrip "2 Crore".data) "Crore".data = true ∧
    parseFloat (removeCommas (pyStrip (dropR (pyStrip "2 Crore".data) 5))) = some ⟨2, 0⟩ ∧
    convert_price "2 Crore" = pyRound (Dec.mulInt ⟨2, 0⟩ 10000000) :=
  ⟨by decide, by decide,
    claim_C4.2.2.2.2.2.2.2.1 "2 Crore" ⟨2, 0⟩ (by decide) (by decide)⟩

/-- C5: the `convert_size` unit table.  The concrete testable values
hold; a stripped input ending in `Marla` is multiplied by 225, `Kanal`
by 4500, `Sq. Yd.` by 9, `Sq. Ft.` by 1 (no multiplication in the
source), each rounded; an input with no recognized suffix is assumed to
already be square feet and parsed as a plain comma-stripped decimal. -/
theorem claim_C5 :
    convert_size "10 Marla" = 2250 ∧
    convert_size "1 Kanal" = 4500 ∧
    convert_size "500 Sq. Ft." = 500 ∧
    convert_size "bad" = 0 ∧
    convert_size "2 Sq. Yd." = 18 ∧
    (∀ (s : String) (d : Dec),
      pyEndsWith (pyStrip s.data) "Marla".data = true →
      parseFloat (removeCommas (pyStrip (dropR (pyStrip s.data) 5))) = some d →
      convert_size s = pyRound (d.mulInt 225)) ∧
    (∀ (s : String) (d : Dec),
      pyEndsWith (pyStrip s.data) "Kanal".data = true →
      parseFloat (removeCommas (pyStrip (dropR (pyStrip s.data) 5))) = some d →
      convert_size s = pyRound (d.mulInt 4500)) ∧
    (∀ (s : String) (d : Dec),
      pyEndsWith (pyStrip s.data) "Sq. Yd.".data = true →
      parseFloat (removeCommas (pyStrip (dropR (pyStrip s.data) 7))) = some d →
      convert_size s = pyRound (d.mulInt 9)) ∧
    (∀ (s : String) (d : Dec),
      pyEndsWith (pyStrip s.data) "Sq. Ft.".data = true →
      parseFloat (removeCommas (pyStrip (dropR (pyStrip s.data) 7))) = some d →
      convert_size s = pyRound d) ∧
    (∀ (s : String) (d : Dec),
      pyEndsWith (pyStrip s.data) "Marla".data = false →
      pyEndsWith (pyStrip s.data) "Kanal".data = false →
      pyEndsWith (pyStrip s.data) "Sq. Yd.".data = false →
      pyEndsWith (pyStrip s.data) "Sq. Ft.".data = false →
      parseFloat (removeCommas (pyStrip s.data)) = some d →
      convert_size s = pyRound d) := by
  refine ⟨by decide, by decide, by decide, by decide, by decide, ?_, ?_, ?_, ?_, ?_⟩
  · intro s d hend hp
    have hsne : s.data ≠ [] := fun h0 => absurd (h0 ▸ hend) (by decide)
    simp [convert_size, convert_sizeL, sizeValue, hsne, hend, hp]
  · intro s d hend hp
    have hsne : s.data ≠ [] := fun h0 => absurd (h0 ▸ hend) (by decide)
    have h1 := pyEndsWith_excl hend (b := "Marla".data) (by decide) (by decide)
    simp [convert_size, convert_sizeL, sizeValue, hsne, h1, hend, hp]
  · intro s d hend hp
    have hsne : s.data ≠ [] := fun h0 => absurd (h0 ▸ hend) (by decide)
    have h1 := pyEndsWith_excl hend (b := "Marla".data) (by decide) (by decide)
    have h2 := pyEndsWith_excl hend (b := "Kanal".data) (by decide) (by decide)
    simp [convert_size, convert_sizeL, sizeValue, hsne, h1, h2, hend, hp]
  · intro s d hend hp
    have hsne : s.data ≠ [] := fun h0 => absurd (h0 ▸ hend) (by decide)
    have h1 := pyEndsWith_excl hend (b := "Marla".data) (by decide) (by decide)
    have h2 := pyEndsWith_excl hend (b := "Kanal".data) (by decide) (by decide)
    have h3 := pyEndsWith_excl hend (b := "Sq. Yd.".data) (by decide) (by decide)
    simp [convert_size, convert_sizeL, sizeValue, hsne, h1, h2, h3, hend, hp]
  · intro s d h1 h2 h3 h4 hp
    have hsne : s.data ≠ [] := by
      intro h0
      rw [h0, show parseFloat (removeCommas (pyStrip ([] : List Char))) = none from by decide] at hp
      exact Option.noConfusion hp
    simp [convert_size, convert_sizeL, sizeValue, hsne, h1, h2, h3, h4, hp]

/-- C5 witness: the `Marla` row applied at "3 Marla". -/
theorem claim_C5_witness :
    pyEndsWith (pyStrip "3 Marla".data) "Marla".data = true ∧
    parseFloat (removeCommas (pyStrip (dropR (pyStrip "3 Marla".data) 5))) = some ⟨3, 0⟩ ∧
    convert_size "3 Marla" = pyRound (Dec.mulInt ⟨3, 0⟩ 225) :=
  ⟨by decide, by decide,
    claim_C5.2.2.2.2.2.1 "3 Marla" ⟨3, 0⟩ (by decide) (by decide)⟩

/-- C6: failure policy of the normalizers — empty input and any input
whose selected branch fails to parse a numeric prefix yield 0; totality
and determinism hold by construction, both being plain Lean functions
into `ℤ`. -/
theorem claim_C6 :
    convert_price "" = 0 ∧ convert_size "" = 0 ∧
    (∀ s : String, priceValue s.data = none → convert_price s = 0) ∧
    (∀ s : String, sizeValue s.data = none → convert_size s = 0) := by
  refine ⟨by decide, by decide, ?_, ?_⟩
  · intro s h
    simp [convert_price, convert_priceL, h]
  · intro s h
    simp [convert_size, convert_sizeL, h]

/-- C6 witness: the non-numeric input "abc" yields 0. -/
theorem claim_C6_witness :
    priceValue "abc".data = none ∧ convert_price "abc" = 0 :=
  ⟨by decide, claim_C6.2.2.1 "abc" (by decide)⟩

/-- C8: at the failing input — city 1 returns 5 listings and uploads
fine, city 2 returns 20 listings and then its blob upload raises —
`total_listings` is 25 (it was increased before the upload, line 124)
while the recorded `city_stats` carry a `listings_count` sum of only 5
(the error entry of lines 165-169 has no `listings_count` key), so the
run-level invariant `totalListings == sum(cityStats[*].listingsCount)`
fails for runs where a city raises between counting and stats
recording. -/
theorem claim_C8 :
    (runCities exampleRun exampleCities).1 = 25 ∧
    sumCounts (runCities exampleRun exampleCities).2 = 5 ∧
    (runCities exampleRun exampleCities).1 ≠
      sumCounts (runCities exampleRun exampleCities).2 := by
  refine ⟨by decide, by decide, by decide⟩

/-- C9: an exception escaping one city's processing is caught and
recorded as that city's entry with error status and the error message;
the cities after it are still processed exactly as they would be on
their own, the cities before it keep exactly the results they already
had, and every configured city ends up with exactly one recorded
entry. -/
theorem claim_C9 (f : City → CityRun) (pre post : List City) (c : City) (msg : String)
    (h : f c = .raises msg) :
    ((runCities f (pre ++ c :: post)).2 =
      (runCities f pre).2 ++ (c.name, ⟨.error, none, some msg⟩) :: (runCities f post).2) ∧
    (∀ cities : List City, (runCities f cities).2.length = cities.length) := by
  constructor
  · induction pre with
    | nil => simp [runCities, cityStep, h]
    | cons a t ih => simp [runCities, ih]
  · intro cities
    induction cities with
    | nil => rfl
    | cons a t ih => simp [runCities, ih]

/-- C9 witness: with city B raising, city A's recorded result is
untouched and city C is still processed. -/
theorem claim_C9_witness :
    wRun wCityB = .raises "boom" ∧
    ((runCities wRun ([wCityA] ++ wCityB :: [wCityC])).2 =
      (runCities wRun [wCityA]).2 ++
        (wCityB.name, ⟨.error, none, some "boom"⟩) :: (runCities wRun [wCityC]).2) :=
  ⟨rfl, (claim_C9 wRun [wCityA] [wCityC] wCityB "boom" rfl).1⟩

end Zameen
